import Mathlib

/-!
Verification of the format registry and dispatch layer of
`MDAnalysis.coordinates` (file `src/MDAnalysis/coordinates/__init__.py`)
against its natural-language specification.

The registry tables are embedded directly from the source module.  The
parts of the layer whose implementation lives outside this file's source
(`MDAnalysis.coordinates.base` and `MDAnalysis.coordinates.core`:
the Timestep container, the Reader iteration contract, the ChainReader and
the `reader`/`writer` dispatch functions) are modelled from the spec, each
marked `Modelled from the spec:` in its doc comment.
-/

namespace MDAnalysisCoordinates

/-- Reader/writer driver classes referenced by the registry tables in
`src/MDAnalysis/coordinates/__init__.py` (one constructor per distinct
Python class object). -/
inductive Driver where
  | DCDReader
  | XTCReader
  | XYZReader
  | TRRReader
  | PDBReader
  | PrimitivePDBReader
  | PDBQTReader
  | CRDReader
  | GROReader
  | TRJReader
  | PQRReader
  | ChainReader
  | PrimitivePDBWriter
  | PDBQTWriter
  | CRDWriter
  | GROWriter
  | DCDWriter
  | XTCWriter
  | TRRWriter
  deriving DecidableEq, Repr

/-- A Python `dict` modelled as an association list without duplicate keys
(first component: key, second: value). -/
abbrev Dict := List (String × Driver)

/-- Keys of a dict, in insertion order (Python `dict.keys()`). -/
def Dict.keys (d : Dict) : List String :=
  d.map Prod.fst

/-- Python `d[k] = v`: overwrite the binding for `k` when `k` is already a
key (keeping its position), append it otherwise. -/
def dictInsert (d : Dict) (k : String) (v : Driver) : Dict :=
  if (Dict.keys d).contains k then
    d.map (fun p => if p.1 = k then (k, v) else p)
  else
    d ++ [(k, v)]

/-- Semantics of a Python `dict` literal: bindings are inserted in textual
order, so a later binding for the same key overwrites an earlier one. -/
def dictOfList (entries : List (String × Driver)) : Dict :=
  entries.foldl (fun d p => dictInsert d p.1 p.2) []

/-- The entries of the `_trajectory_readers` dict literal exactly as written
in the source (lines 509-523), in textual order, including the key `'TRJ'`
written twice: first bound to `DCD.DCDReader` and later to `TRJ.TRJReader`. -/
def _trajectory_readers_entries : List (String × Driver) :=
  [("DCD", Driver.DCDReader),
   ("TRJ", Driver.DCDReader),
   ("XTC", Driver.XTCReader),
   ("XYZ", Driver.XYZReader),
   ("TRR", Driver.TRRReader),
   ("PDB", Driver.PDBReader),
   ("PDBQT", Driver.PDBQTReader),
   ("CRD", Driver.CRDReader),
   ("GRO", Driver.GROReader),
   ("TRJ", Driver.TRJReader),
   ("MDCRD", Driver.TRJReader),
   ("PQR", Driver.PQRReader),
   ("CHAIN", Driver.ChainReader)]

/-- `_trajectory_readers`: standard trajectory readers (identifier -> reader
class), the dict built from the source literal. -/
def _trajectory_readers : Dict :=
  dictOfList _trajectory_readers_entries

/-- `_compressed_formats` (line 526): formats of readers that can also handle
gzip or bzip2 compressed files. -/
def _compressed_formats : List String :=
  ["XYZ", "TRJ", "MDCRD", "PQR", "PDBQT"]

/-- `_topology_coordinates_readers` (lines 530-536): readers of files that
contain both topology/atom data and coordinates. -/
def _topology_coordinates_readers : Dict :=
  dictOfList
    [("PDB", Driver.PrimitivePDBReader),
     ("PDBQT", Driver.PDBQTReader),
     ("GRO", Driver.GROReader),
     ("CRD", Driver.CRDReader),
     ("PQR", Driver.PQRReader)]

/-- `_trajectory_readers_permissive` (lines 541-542): a copy of
`_trajectory_readers` with the single key `'PDB'` rebound to
`PDB.PrimitivePDBReader`
(`_trajectory_readers.copy()` followed by one item assignment). -/
def _trajectory_readers_permissive : Dict :=
  dictInsert _trajectory_readers "PDB" Driver.PrimitivePDBReader

/-- `_frame_writers` (lines 549-553): single-frame writers. -/
def _frame_writers : Dict :=
  dictOfList
    [("PDB", Driver.PrimitivePDBWriter),
     ("PDBQT", Driver.PDBQTWriter),
     ("CRD", Driver.CRDWriter),
     ("GRO", Driver.GROWriter)]

/-- `_trajectory_writers` (lines 563-566): trajectory writers. -/
def _trajectory_writers : Dict :=
  dictOfList
    [("DCD", Driver.DCDWriter),
     ("XTC", Driver.XTCWriter),
     ("TRR", Driver.TRRWriter)]

/-! ## Dispatcher (`MDAnalysis.coordinates.core`, modelled from the spec) -/

/-- Compression suffixes recognized by the dispatcher; the source module
documentation names gzip and bzip2 (".xyz.bz2"-style names). -/
def compression_suffixes : List String :=
  ["gz", "bz2"]

/-- Split a character list on a separator character (the semantics of
Python `str.split`): `splitOnChar sep cs` returns the maximal runs of
non-separator characters, with an empty run between adjacent separators. -/
def splitOnChar (sep : Char) : List Char → List (List Char)
  | [] => [[]]
  | c :: cs =>
    let rest := splitOnChar sep cs
    if c = sep then [] :: rest
    else
      match rest with
      | [] => [[c]]
      | r :: rs => (c :: r) :: rs

/-- Uppercase a string character by character. -/
def strUpper (s : String) : String :=
  String.mk (s.data.map Char.toUpper)

/-- Modelled from the spec: the filename-suffix analysis of the Dispatcher
(function `guess_format` of `MDAnalysis.coordinates.core`, which is not under
`src/`): strip a recognized compression suffix if present, then take the
remaining filename suffix, uppercased, as the format tag.  Returns the tag
and the detected compression suffix, if any. -/
def guess_format (filename : String) : String × Option String :=
  let parts := splitOnChar '.' filename.data
  match parts.reverse with
  | last :: prev :: _ =>
      if compression_suffixes.contains (String.mk last) then
        (strUpper (String.mk prev), some (String.mk last))
      else
        (strUpper (String.mk last), none)
  | [last] => (strUpper (String.mk last), none)
  | [] => ("", none)

/-- Modelled from the spec: tag resolution for a dispatch request.  An
explicit format override is used verbatim (uppercased) and suppresses
filename analysis; otherwise the tag and compression suffix come from
`guess_format`. -/
def resolve_format (filename : String) (format : Option String) :
    String × Option String :=
  match format with
  | some f => (strUpper f, none)
  | none => guess_format filename

/-- Dispatch failure: no driver registered for the resolved format tag. -/
inductive DispatchError where
  | UnknownFormat (tag : String)
  deriving DecidableEq, Repr

/-- The observable result of opening a trajectory reader: the driver class
chosen from the registry, the reader's `format` tag, its `compressed`
attribute (the compression suffix, or none), and whether the dispatcher
instructs the driver to transparently decompress the stream before
parsing. -/
structure OpenedReader where
  driver : Driver
  format : String
  compressed : Option String
  decompress : Bool
  deriving DecidableEq, Repr

/-- Modelled from the spec: `open_reader` / `MDAnalysis.coordinates.core.reader`
(not under `src/`).  Resolve the tag, look it up in `_trajectory_readers`;
if absent fail with `UnknownFormat` (never substituting a default driver);
otherwise return a reader tagged with the resolved format, recording the
detected compression suffix, with transparent decompression switched on
exactly when the tag is in `_compressed_formats` and a compression suffix
was detected. -/
def reader (filename : String) (format : Option String) :
    Except DispatchError OpenedReader :=
  let tc := resolve_format filename format
  match List.lookup tc.1 _trajectory_readers with
  | none => Except.error (DispatchError.UnknownFormat tc.1)
  | some d =>
      Except.ok
        { driver := d
          format := tc.1
          compressed := tc.2
          decompress := _compressed_formats.contains tc.1 && tc.2.isSome }

/-- Modelled from the spec: `open_writer` / `MDAnalysis.coordinates.core.writer`
(not under `src/`).  Resolve the tag, look it up in the relevant table
(`_trajectory_writers` for a multiframe destination, `_frame_writers`
otherwise); if absent fail with `UnknownFormat`, never substituting a
default driver. -/
def writer (filename : String) (format : Option String) (multiframe : Bool) :
    Except DispatchError Driver :=
  let tc := resolve_format filename format
  let table := if multiframe then _trajectory_writers else _frame_writers
  match List.lookup tc.1 table with
  | none => Except.error (DispatchError.UnknownFormat tc.1)
  | some d => Except.ok d

/-! ## Chain reader (`base.ChainReader`, modelled from the spec) -/

/-- The data of one component reader that chain construction and global
frame lookup depend on: its frame count and its atom count. -/
structure ComponentReader where
  numframes : Nat
  numatoms : Nat
  deriving DecidableEq, Repr

/-- Chain construction failure: component atom counts differ. -/
inductive ChainError where
  | ChainMismatch
  deriving DecidableEq, Repr

/-- A successfully constructed chain: its components and the shared atom
count. -/
structure Chain where
  components : List ComponentReader
  numatoms : Nat
  deriving DecidableEq, Repr

/-- Modelled from the spec: construction of `base.ChainReader` (not under
`src/`).  Validates that every component reports the same atom count as the
first; any mismatch fails with `ChainMismatch` before any frame is read, and
no (partial) chain value is produced in that case. -/
def ChainReader_new (readers : List ComponentReader) : Except ChainError Chain :=
  match readers with
  | [] => Except.ok { components := [], numatoms := 0 }
  | c :: rest =>
      if rest.all (fun r => r.numatoms == c.numatoms) then
        Except.ok { components := c :: rest, numatoms := c.numatoms }
      else
        Except.error ChainError.ChainMismatch

/-- Modelled from the spec: a chain's total frame count is the sum of its
components' frame counts. -/
def Chain.numframes (ch : Chain) : Nat :=
  (ch.components.map ComponentReader.numframes).sum

/-- Modelled from the spec: the prefix-sum mapping of a global frame index
to (1-based component index, local frame offset) maintained by the chain
reader; `none` when the global index is past the last component. -/
def frameToComponent : List ComponentReader → Nat → Option (Nat × Nat)
  | [], _ => none
  | c :: rest, i =>
      if i < c.numframes then some (1, i)
      else (frameToComponent rest (i - c.numframes)).map (fun p => (p.1 + 1, p.2))

/-! ## Reader iteration (`base.Reader`, modelled from the spec and the
documented Trajectory API in the source module) -/

/-- The content of one frame as produced by a reader, abstracted as the
per-atom coordinate rows. -/
abbrev FrameData := List (Int × Int × Int)

/-- A reader over a finite source: the sequence of frames the source holds
and the current read position (number of frames already consumed). -/
structure ReaderState where
  frames : List FrameData
  pos : Nat
  deriving DecidableEq, Repr

/-- The exception the documented Reader contract raises from `next`:
the source module's Trajectory API documentation (lines 275-277) specifies
"advance to next time step or raise IOError when moving past the last
frame".  `IOError` is Python's generic input/output failure exception. -/
inductive PyError where
  | IOError
  deriving DecidableEq, Repr

/-- `next`: advance one frame, returning the frame read and the advanced
reader; past the last frame, raise `IOError` as the documented contract
specifies. -/
def ReaderState.next (r : ReaderState) : Except PyError (FrameData × ReaderState) :=
  match r.frames[r.pos]? with
  | some f => Except.ok (f, { r with pos := r.pos + 1 })
  | none => Except.error PyError.IOError

/-- `rewind`: reposition to the first frame. -/
def ReaderState.rewind (r : ReaderState) : ReaderState :=
  { r with pos := 0 }

/-- One step of forward iteration: advance on success, stay put once `next`
raises (the iteration loop stops there). -/
def ReaderState.step (r : ReaderState) : ReaderState :=
  match r.next with
  | Except.ok p => p.2
  | Except.error _ => r

/-- Iterating a reader: `n` iteration steps from the current position. -/
def ReaderState.iterate (r : ReaderState) : Nat → ReaderState
  | 0 => r
  | n + 1 => (r.step).iterate n

/-- Follows the spec's words (§7 of the spec): the signal `next` returns at
end of stream is distinguishable from a generic I/O failure, i.e. it is not
Python's generic `IOError`.  Stated as a predicate on a reader so the claim
can be compared with the embedded contract. -/
def end_signal_distinct_from_io_failure (r : ReaderState) : Prop :=
  r.next ≠ Except.error PyError.IOError

/-! ## Frame container (`base.Timestep`, modelled from the spec) -/

/-- One coordinate row (per-atom X/Y/Z).  Coordinates are modelled over `Int`;
the claims under study concern storage independence, not arithmetic. -/
abbrev Coord := Int × Int × Int

/-- The buffer store: numpy-style mutable arrays live here, addressed by
buffer id, so that aliasing between Timesteps is observable.  `bufs[i]?`
is the content of buffer `i`. -/
structure Store where
  bufs : List (List Coord)
  deriving DecidableEq, Repr

/-- Read a whole buffer out of the store (empty if the id is unallocated). -/
def Store.read (s : Store) (id : Nat) : List Coord :=
  (s.bufs[id]?).getD []

/-- Overwrite one coordinate row of one buffer in the store: the mutation
`ts._pos[i] = c` on the array stored at `id`. -/
def Store.writeRow (s : Store) (id : Nat) (i : Nat) (c : Coord) : Store :=
  { bufs := s.bufs.set id ((s.read id).set i c) }

/-- A Timestep: per-frame metadata plus the id of the buffer holding its
coordinate array `_pos` in the store. -/
structure Timestep where
  numatoms : Nat
  frame : Nat
  unitcell : List Int
  posId : Nat
  deriving DecidableEq, Repr

/-- Modelled from the spec: `Timestep.copy` (documented at lines 206-207 of
the source module as "deep copy of the instance", and in the spec as
content-equal but independently-mutable storage).  A fresh buffer is
allocated at the end of the store, the source's coordinate content is copied
into it, and the new Timestep carries the same metadata but the fresh
buffer's id. -/
def Timestep.copy (s : Store) (t : Timestep) : Store × Timestep :=
  ({ bufs := s.bufs ++ [s.read t.posId] },
   { numatoms := t.numatoms
     frame := t.frame
     unitcell := t.unitcell
     posId := s.bufs.length })

/-! ## Helper lemmas -/

/-- Unfolding of `List.lookup` at a cons cell, with propositional equality
in place of the boolean key comparison. -/
theorem lookup_cons (k a : String) (v : Driver) (d : Dict) :
    List.lookup k ((a, v) :: d) = if k = a then some v else List.lookup k d := by
  by_cases h : k = a
  · subst h
    simp [List.lookup]
  · simp [List.lookup, beq_false_of_ne h, h]

/-- Looking up a key in an association list whose entries were rewritten at
one (different) key is the same as looking it up in the original list. -/
theorem lookup_map_overwrite (d : Dict) (k0 k : String) (v : Driver)
    (h : k ≠ k0) :
    List.lookup k (d.map (fun p => if p.1 = k0 then (k0, v) else p)) =
      List.lookup k d := by
  induction d with
  | nil => rfl
  | cons p rest ih =>
    obtain ⟨a, b⟩ := p
    by_cases hp : a = k0
    · subst hp
      simp only [List.map_cons, if_pos]
      rw [lookup_cons, lookup_cons, if_neg h, if_neg h]
      exact ih
    · simp only [List.map_cons]
      rw [if_neg hp]
      rw [lookup_cons, lookup_cons]
      by_cases hk : k = a
      · rw [if_pos hk, if_pos hk]
      · rw [if_neg hk, if_neg hk]
        exact ih

/-- Rewriting an association list at one key leaves the key sequence
unchanged. -/
theorem keys_map_overwrite (d : Dict) (k0 : String) (v : Driver) :
    Dict.keys (d.map (fun p => if p.1 = k0 then (k0, v) else p)) =
      Dict.keys d := by
  induction d with
  | nil => rfl
  | cons p rest ih =>
    obtain ⟨a, b⟩ := p
    by_cases hp : a = k0
    · subst hp
      simpa [Dict.keys] using ih
    · simpa [Dict.keys, hp] using ih

/-- Iterating a reader `n` steps forward from a position with at least `n`
frames left advances the position by exactly `n`. -/
theorem iterate_pos_of_le (r : ReaderState) (n : Nat)
    (h : r.pos + n ≤ r.frames.length) :
    r.iterate n = ReaderState.mk r.frames (r.pos + n) := by
  induction n generalizing r with
  | zero => rfl
  | succ m ih =>
    have hlt : r.pos < r.frames.length := by omega
    have hstep : r.step = ReaderState.mk r.frames (r.pos + 1) := by
      have hf : r.frames[r.pos]? = some r.frames[r.pos] :=
        List.getElem?_eq_getElem hlt
      simp [ReaderState.step, ReaderState.next, hf]
    show (r.step).iterate m = _
    rw [hstep, ih]
    · simp only []
      congr 1
      omega
    · simp
      omega

/-! ## Claim theorems -/

/-- C1: the permissive-mode trajectory-reader table is derived from the base
trajectory-reader table by overriding only the entry for tag `'PDB'`
(replacing `PDB.PDBReader` with `PDB.PrimitivePDBReader`): every key other
than `'PDB'` maps to exactly the same driver constructor in both tables, and
the permissive table's key sequence equals the base table's key sequence. -/
theorem permissive_overrides_only_PDB (k : String) (h : k ≠ "PDB") :
    List.lookup k _trajectory_readers_permissive =
        List.lookup k _trajectory_readers ∧
    Dict.keys _trajectory_readers_permissive = Dict.keys _trajectory_readers := by
  have e : _trajectory_readers_permissive =
      _trajectory_readers.map
        (fun p => if p.1 = "PDB" then ("PDB", Driver.PrimitivePDBReader) else p) := by
    rfl
  constructor
  · rw [e]
    exact lookup_map_overwrite _ _ _ _ h
  · rw [e]
    exact keys_map_overwrite _ _ _

/-- Witness for C1 at the concrete key `"DCD"`. -/
theorem permissive_overrides_only_PDB_witness :
    List.lookup "DCD" _trajectory_readers_permissive =
        List.lookup "DCD" _trajectory_readers ∧
    Dict.keys _trajectory_readers_permissive = Dict.keys _trajectory_readers :=
  permissive_overrides_only_PDB "DCD" (by decide)

/-- C2: in the `_trajectory_readers` dict literal the key `'TRJ'` is written
twice — entry 1 (0-based) binds it to `DCD.DCDReader` and entry 9 later
binds it to `TRJ.TRJReader` — and in the constructed dict the later binding
wins: `'TRJ'` maps to the Amber text reader, never to the DCD reader. -/
theorem trj_later_binding_wins :
    _trajectory_readers_entries[1]? = some ("TRJ", Driver.DCDReader) ∧
    _trajectory_readers_entries[9]? = some ("TRJ", Driver.TRJReader) ∧
    List.lookup "TRJ" _trajectory_readers = some Driver.TRJReader ∧
    List.lookup "TRJ" _trajectory_readers ≠ some Driver.DCDReader := by
  refine ⟨rfl, rfl, rfl, ?_⟩
  intro hcontra
  simp only [show List.lookup "TRJ" _trajectory_readers = some Driver.TRJReader
    from rfl, Option.some.injEq] at hcontra
  cases hcontra

/-- C3: opening a reader on a filename carrying a recognized compression
suffix over a suffix resolving to a tag in the compressed-format set returns
a reader whose format tag is the resolved tag and whose compression tag
records the compression suffix, with transparent decompression instructed
before the driver parses the stream (`decompress = true`). -/
theorem compressed_suffix_reader (filename tag comp : String) (d : Driver)
    (hres : guess_format filename = (tag, some comp))
    (hmem : tag ∈ _compressed_formats)
    (hd : List.lookup tag _trajectory_readers = some d) :
    reader filename none =
      Except.ok { driver := d, format := tag, compressed := some comp,
                  decompress := true } := by
  have hc : _compressed_formats.contains tag = true := List.elem_eq_true_of_mem hmem
  simp only [reader, resolve_format, hres, hd, hc, Option.isSome_some, Bool.and_self]

/-- Witness for C3 at the spec's concrete scenario: `"traj.xyz.bz2"` opens as
an `XYZ`-tagged reader whose compression tag is `bz2`. -/
theorem compressed_suffix_reader_witness :
    reader "traj.xyz.bz2" none =
      Except.ok { driver := Driver.XYZReader, format := "XYZ",
                  compressed := some "bz2", decompress := true } :=
  compressed_suffix_reader "traj.xyz.bz2" "XYZ" "bz2" Driver.XYZReader rfl
    (by decide) rfl

/-- C4: a dispatch request (reader or writer) whose resolved format tag is
absent from the relevant registry table fails with `UnknownFormat` carrying
that tag — no default driver is ever substituted. -/
theorem unknown_format_never_default (filename : String) (fmt : Option String)
    (mf : Bool) :
    (List.lookup (resolve_format filename fmt).1 _trajectory_readers = none →
        reader filename fmt =
          Except.error (DispatchError.UnknownFormat (resolve_format filename fmt).1)) ∧
    (List.lookup (resolve_format filename fmt).1
          (if mf then _trajectory_writers else _frame_writers) = none →
        writer filename fmt mf =
          Except.error (DispatchError.UnknownFormat (resolve_format filename fmt).1)) := by
  constructor
  · intro h
    simp only [reader, h]
  · intro h
    simp only [writer, h]

/-- Witness for C4 at the spec's concrete scenario: opening a writer (either
kind) or a reader for `"out.zzz"` — whose tag `'ZZZ'` is unregistered —
fails with `UnknownFormat "ZZZ"`. -/
theorem unknown_format_never_default_witness :
    writer "out.zzz" none true = Except.error (DispatchError.UnknownFormat "ZZZ") ∧
    writer "out.zzz" none false = Except.error (DispatchError.UnknownFormat "ZZZ") ∧
    reader "out.zzz" none = Except.error (DispatchError.UnknownFormat "ZZZ") :=
  ⟨(unknown_format_never_default "out.zzz" none true).2 (by rfl),
   (unknown_format_never_default "out.zzz" none false).2 (by rfl),
   (unknown_format_never_default "out.zzz" none true).1 (by rfl)⟩

/-- C5: for a chain over component readers of known lengths that all share
one atom count (and at least two components, each non-empty), construction
succeeds, the chain's total length is the sum of the component lengths,
global frame index `L1 - 1` maps to (component 1, local `L1 - 1`), and
global frame index `L1` maps to (component 2, local 0). -/
theorem chain_length_and_frame_mapping (c1 c2 : ComponentReader)
    (rest : List ComponentReader)
    (hatoms : ((c2 :: rest).all (fun r => r.numatoms == c1.numatoms)) = true)
    (h1 : 0 < c1.numframes) (h2 : 0 < c2.numframes) :
    ChainReader_new (c1 :: c2 :: rest) =
        Except.ok { components := c1 :: c2 :: rest, numatoms := c1.numatoms } ∧
    Chain.numframes { components := c1 :: c2 :: rest, numatoms := c1.numatoms } =
        ((c1 :: c2 :: rest).map ComponentReader.numframes).sum ∧
    frameToComponent (c1 :: c2 :: rest) (c1.numframes - 1) =
        some (1, c1.numframes - 1) ∧
    frameToComponent (c1 :: c2 :: rest) c1.numframes = some (2, 0) := by
  refine ⟨?_, rfl, ?_, ?_⟩
  · simp only [ChainReader_new, hatoms, if_pos]
  · simp only [frameToComponent]
    rw [if_pos (by omega : c1.numframes - 1 < c1.numframes)]
  · simp only [frameToComponent]
    rw [if_neg (lt_irrefl c1.numframes), Nat.sub_self, if_pos h2]
    rfl

/-- Witness for C5 at the spec's concrete scenario: a chain over components
of lengths 10 and 5 (4 atoms each) has total length 15, frame 9 maps to
(component 1, local 9) and frame 10 maps to (component 2, local 0). -/
theorem chain_length_and_frame_mapping_witness :
    ChainReader_new [⟨10, 4⟩, ⟨5, 4⟩] =
        Except.ok { components := [⟨10, 4⟩, ⟨5, 4⟩], numatoms := 4 } ∧
    Chain.numframes { components := [⟨10, 4⟩, ⟨5, 4⟩], numatoms := 4 } =
        (([⟨10, 4⟩, ⟨5, 4⟩] : List ComponentReader).map ComponentReader.numframes).sum ∧
    frameToComponent [⟨10, 4⟩, ⟨5, 4⟩] 9 = some (1, 9) ∧
    frameToComponent [⟨10, 4⟩, ⟨5, 4⟩] 10 = some (2, 0) :=
  chain_length_and_frame_mapping ⟨10, 4⟩ ⟨5, 4⟩ [] (by decide) (by decide)
    (by decide)

/-- C6: chain construction over components among which two report different
atom counts fails with `ChainMismatch` — the `Except.error` result carries
no chain value, so no partially constructed chain is produced, and no frame
is read (construction is the only operation involved). -/
theorem chain_mismatch_fails_construction (readers : List ComponentReader)
    (a b : ComponentReader) (ha : a ∈ readers) (hb : b ∈ readers)
    (hne : a.numatoms ≠ b.numatoms) :
    ChainReader_new readers = Except.error ChainError.ChainMismatch := by
  match readers with
  | [] => cases ha
  | c :: rest =>
    have hfalse : (rest.all (fun r => r.numatoms == c.numatoms)) = false := by
      by_contra hcon
      have hall : (rest.all (fun r => r.numatoms == c.numatoms)) = true := by
        revert hcon
        cases rest.all (fun r => r.numatoms == c.numatoms) <;> simp
      have heq : ∀ r ∈ (c :: rest), r.numatoms = c.numatoms := by
        intro r hr
        rcases List.mem_cons.mp hr with h | h
        · rw [h]
        · exact beq_iff_eq.mp (List.all_eq_true.mp hall r h)
      exact hne ((heq a ha).trans (heq b hb).symm)
    simp only [ChainReader_new, hfalse, Bool.false_eq_true, if_false]

/-- Witness for C6 at the spec's concrete scenario: components with atom
counts 10 and 12 fail chain construction with `ChainMismatch`. -/
theorem chain_mismatch_fails_construction_witness :
    ChainReader_new [⟨3, 10⟩, ⟨3, 12⟩] = Except.error ChainError.ChainMismatch :=
  chain_mismatch_fails_construction [⟨3, 10⟩, ⟨3, 12⟩] ⟨3, 10⟩ ⟨3, 12⟩
    (by decide) (by decide) (by decide)

/-- C7 counterexample: a one-frame reader iterated to exhaustion answers the
next `next` call with `IOError` — Python's generic I/O failure and the very
signal the documented contract (source lines 275-277) prescribes for moving
past the last frame — so the end-of-stream signal is not distinguishable
from a generic I/O failure as the claim requires. -/
theorem end_signal_not_distinct_counterexample :
    ¬ end_signal_distinct_from_io_failure
        ((ReaderState.mk [[(0, 0, 0)]] 0).iterate 1) :=
  fun h => h rfl

/-- C7 as amended: for every reader over a non-empty source, after iterating
to exhaustion a further `next` raises `IOError` (the generic I/O failure
channel; the documented contract provides no dedicated end-of-stream kind),
and a subsequent `rewind` repositions to the first frame, whose content
equals that of the original first read. -/
theorem exhausted_next_io_error_and_rewind (frames : List FrameData)
    (hne : frames ≠ []) :
    ((ReaderState.mk frames 0).iterate frames.length).next =
        Except.error PyError.IOError ∧
    ((ReaderState.mk frames 0).iterate frames.length).rewind =
        ReaderState.mk frames 0 ∧
    (∃ f, frames.head? = some f ∧
      ((ReaderState.mk frames 0).iterate frames.length).rewind.next =
        Except.ok (f, ReaderState.mk frames 1)) := by
  have hiter : (ReaderState.mk frames 0).iterate frames.length =
      ReaderState.mk frames frames.length := by
    have := iterate_pos_of_le (ReaderState.mk frames 0) frames.length (by simp)
    simpa using this
  obtain ⟨f, rest, hf⟩ := List.exists_cons_of_ne_nil hne
  subst hf
  refine ⟨?_, ?_, f, rfl, ?_⟩
  · rw [hiter]
    simp [ReaderState.next]
  · rw [hiter]
    rfl
  · rw [hiter]
    simp [ReaderState.rewind, ReaderState.next]

/-- Witness for the amended C7 at a concrete two-frame reader. -/
theorem exhausted_next_io_error_and_rewind_witness :
    (((ReaderState.mk [[(1, 2, 3)], [(4, 5, 6)]] 0).iterate 2).next =
        Except.error PyError.IOError ∧
    ((ReaderState.mk [[(1, 2, 3)], [(4, 5, 6)]] 0).iterate 2).rewind =
        ReaderState.mk [[(1, 2, 3)], [(4, 5, 6)]] 0 ∧
    (∃ f, ([[(1, 2, 3)], [(4, 5, 6)]] : List FrameData).head? = some f ∧
      ((ReaderState.mk [[(1, 2, 3)], [(4, 5, 6)]] 0).iterate 2).rewind.next =
        Except.ok (f, ReaderState.mk [[(1, 2, 3)], [(4, 5, 6)]] 1))) :=
  exhausted_next_io_error_and_rewind [[(1, 2, 3)], [(4, 5, 6)]] (by simp)

/-- C8: `Timestep.copy` yields a Timestep whose metadata (atom count, frame
number, unit cell) is content-equal to the source, whose coordinate buffer
content equals the source's, yet whose buffer id differs from the source's
(the copy never aliases the source buffer); the source's content is left
unchanged by the copy, mutating any coordinate row of the copy's buffer
never changes the source's read-back, and mutating the source's buffer
never changes the copy's read-back. -/
theorem timestep_copy_deep_and_independent (s : Store) (t : Timestep)
    (hvalid : t.posId < s.bufs.length) :
    ((Timestep.copy s t).2.numatoms = t.numatoms ∧
     (Timestep.copy s t).2.frame = t.frame ∧
     (Timestep.copy s t).2.unitcell = t.unitcell) ∧
    (Timestep.copy s t).1.read (Timestep.copy s t).2.posId = s.read t.posId ∧
    (Timestep.copy s t).1.read t.posId = s.read t.posId ∧
    (Timestep.copy s t).2.posId ≠ t.posId ∧
    (∀ i c, ((Timestep.copy s t).1.writeRow (Timestep.copy s t).2.posId i c).read
        t.posId = (Timestep.copy s t).1.read t.posId) ∧
    (∀ i c, ((Timestep.copy s t).1.writeRow t.posId i c).read
        (Timestep.copy s t).2.posId =
        (Timestep.copy s t).1.read (Timestep.copy s t).2.posId) := by
  have hne : s.bufs.length ≠ t.posId := Nat.ne_of_gt hvalid
  refine ⟨⟨rfl, rfl, rfl⟩, ?_, ?_, hne, ?_, ?_⟩
  · simp [Timestep.copy, Store.read, List.getElem?_concat_length]
  · simp [Timestep.copy, Store.read, List.getElem?_append_left hvalid]
  · intro i c
    simp [Timestep.copy, Store.writeRow, Store.read, List.getElem?_set_ne hne,
      List.getElem?_append_left hvalid]
  · intro i c
    simp [Timestep.copy, Store.writeRow, Store.read,
      List.getElem?_set_ne (Ne.symm hne)]

/-- Witness for C8 at a concrete one-atom Timestep. -/
theorem timestep_copy_deep_and_independent_witness :
    let s : Store := ⟨[[(1, 2, 3)]]⟩
    let t : Timestep := ⟨1, 0, [10, 10, 10], 0⟩
    ((Timestep.copy s t).2.numatoms = t.numatoms ∧
     (Timestep.copy s t).2.frame = t.frame ∧
     (Timestep.copy s t).2.unitcell = t.unitcell) ∧
    (Timestep.copy s t).1.read (Timestep.copy s t).2.posId = s.read t.posId ∧
    (Timestep.copy s t).1.read t.posId = s.read t.posId ∧
    (Timestep.copy s t).2.posId ≠ t.posId ∧
    (∀ i c, ((Timestep.copy s t).1.writeRow (Timestep.copy s t).2.posId i c).read
        t.posId = (Timestep.copy s t).1.read t.posId) ∧
    (∀ i c, ((Timestep.copy s t).1.writeRow t.posId i c).read
        (Timestep.copy s t).2.posId =
        (Timestep.copy s t).1.read (Timestep.copy s t).2.posId) :=
  timestep_copy_deep_and_independent ⟨[[(1, 2, 3)]]⟩ ⟨1, 0, [10, 10, 10], 0⟩
    (by decide)

/-- C9: every tag in the compressed-format set (`'XYZ'`, `'TRJ'`, `'MDCRD'`,
`'PQR'`, `'PDBQT'`) is also a key of the trajectory-reader table, so a
compression suffix is only stripped for tags with a registered reader. -/
theorem compressed_formats_have_readers (t : String)
    (h : t ∈ _compressed_formats) :
    t ∈ Dict.keys _trajectory_readers := by
  have hall : ∀ x ∈ _compressed_formats, x ∈ Dict.keys _trajectory_readers := by
    decide
  exact hall t h

/-- Witness for C9 at the concrete tag `"XYZ"`. -/
theorem compressed_formats_have_readers_witness :
    "XYZ" ∈ Dict.keys _trajectory_readers :=
  compressed_formats_have_readers "XYZ" (by decide)

/-- C10: every key of the dual-purpose topology-coordinates table (`'PDB'`,
`'PDBQT'`, `'GRO'`, `'CRD'`, `'PQR'`) is also a key of the trajectory-reader
table, so every format that can supply static topology can also be opened as
a trajectory source. -/
theorem topology_readers_are_trajectory_readers (t : String)
    (h : t ∈ Dict.keys _topology_coordinates_readers) :
    t ∈ Dict.keys _trajectory_readers := by
  have hall : ∀ x ∈ Dict.keys _topology_coordinates_readers,
      x ∈ Dict.keys _trajectory_readers := by
    decide
  exact hall t h

/-- Witness for C10 at the concrete key `"GRO"`. -/
theorem topology_readers_are_trajectory_readers_witness :
    "GRO" ∈ Dict.keys _trajectory_readers :=
  topology_readers_are_trajectory_readers "GRO" (by decide)

end MDAnalysisCoordinates
